import Mathlib

/-!
Verification of `src/bmc_data-example.py`: a linear script that fetches BMC
(power-management) credentials for one node from the MAAS CLI, exports them as
process environment variables, and mirrors them into a Vault KV-v2 secret.

The embedding passes state explicitly:
* `World` models the outcome of the one subprocess invocation (exit code and
  captured stdout, with stderr merged into stdout as in the source).
* Python's `json.loads` is an external library function; every theorem
  quantifies over an arbitrary parser `loads : String → Except PyError Json`,
  so the results hold for any parser behaviour.
* The process environment table and the Vault store are association lists
  threaded through the functions.
* An event trace records the externally visible steps, for the ordering claims.
-/

namespace BmcData

/-- Python exceptions that the script can raise or propagate. -/
inductive PyError where
  | calledProcessError
  | nameError (var : String)
  | keyError (key : String)
  | typeError
  | jsonDecodeError
  | invalidPath
deriving Repr, DecidableEq

/-- JSON values, the possible results of `json.loads`. -/
inductive Json where
  | null
  | bool (b : Bool)
  | num (n : Int)
  | str (s : String)
  | arr (xs : List Json)
  | obj (fields : List (String × Json))

/-- Outcome of the one external command invocation: the exit code of the
subprocess and its captured output (`stderr` is redirected into `stdout`
by `call_cmd`, so a single stream suffices). -/
structure World where
  exitCode : Nat
  stdout : String
deriving Repr, DecidableEq

/-- Externally visible steps of a run, in the order they are performed. -/
inductive Event where
  | invokeInventory
  | logError
  | extractFields
  | setEnvVars
  | vaultWrite (path : String)
  | vaultRead (path : String)
  | logResult
deriving Repr, DecidableEq

/-- The process environment table (`os.environ`). A fresh assignment is
consed on; `envGet` returns the most recent binding. -/
abbrev Env := List (String × String)

/-- Lookup of an environment variable. -/
def envGet (env : Env) (k : String) : Option String :=
  env.lookup k

/-- A Vault secret: a dict of string keys to values. -/
abbrev Secret := List (String × Json)

/-- The Vault KV-v2 store: versioned, so each write conses a new version and
a read returns the most recent one. -/
abbrev Store := List (String × Secret)

/-- Embedding of `call_cmd` (src/bmc_data-example.py lines 16-41).

`subprocess.run(..., check=True)` raises `CalledProcessError` on a non-zero
exit code; the `except` clause logs the error and falls through, after which
`if proc.stdout:` references the never-assigned local `proc` and raises
`NameError`.  On a zero exit code: empty stdout skips the `if` body and the
function returns `None`; otherwise the output is decoded and either parsed
with `json.loads` (modelled by the `loads` parameter) or returned raw.
Returns the result together with the events emitted.
-/
def call_cmd (loads : String → Except PyError Json) (w : World)
    (output_json : Bool) : Except PyError (Option Json) × List Event :=
  if w.exitCode ≠ 0 then
    (.error (.nameError "proc"), [.invokeInventory, .logError])
  else if w.stdout = "" then
    (.ok none, [.invokeInventory])
  else if output_json then
    match loads w.stdout with
    | .ok j => (.ok (some j), [.invokeInventory])
    | .error e => (.error e, [.invokeInventory])
  else
    (.ok (some (.str w.stdout)), [.invokeInventory])

/-- Python subscript `data[k]` where `data` is the value returned by
`call_cmd`: `None` or a non-dict raises `TypeError`, a dict without the key
raises `KeyError k`. -/
def pySubscript (data : Option Json) (k : String) : Except PyError Json :=
  match data with
  | some (.obj fields) =>
    match fields.lookup k with
    | some v => .ok v
    | none => .error (.keyError k)
  | _ => .error .typeError

/-- Embedding of `get_bmc_info` (src/bmc_data-example.py lines 44-58): runs the
MAAS CLI through `call_cmd` (with `output_json` left at its default `True`)
and extracts `power_address`, `power_user` and `power_pass` in that order.
The `Event.extractFields` event marks the successful extraction of all three.
-/
def get_bmc_info (loads : String → Except PyError Json)
    (maas_user node_id : String) (w : World) :
    Except PyError (Json × Json × Json) × List Event :=
  match call_cmd loads w true with
  | (.error e, evs) => (.error e, evs)
  | (.ok data, evs) =>
    match pySubscript data "power_address" with
    | .error e => (.error e, evs)
    | .ok bmc_ip =>
      match pySubscript data "power_user" with
      | .error e => (.error e, evs)
      | .ok bmc_user =>
        match pySubscript data "power_pass" with
        | .error e => (.error e, evs)
        | .ok bmc_pass => (.ok (bmc_ip, bmc_user, bmc_pass), evs ++ [.extractFields])

/-- Embedding of `set_environ_vars` (src/bmc_data-example.py lines 61-71): three
sequential assignments to `os.environ`.  The Python function returns `None`;
here the state change is returned together with `none` when no exception is
raised.  `os.environ[k] = v` raises `TypeError` when `v` is not a string,
before mutating the table, so a failure part-way leaves the earlier
assignments in place.
-/
def set_environ_vars (bmc_ip bmc_user bmc_pass : Json) (env : Env) :
    Option PyError × Env :=
  match bmc_ip with
  | .str s1 =>
    let env1 : Env := ("BMC_IP", s1) :: env
    match bmc_user with
    | .str s2 =>
      let env2 : Env := ("BMC_USER", s2) :: env1
      match bmc_pass with
      | .str s3 => (none, ("BMC_PASS", s3) :: env2)
      | _ => (some .typeError, env2)
    | _ => (some .typeError, env1)
  | _ => (some .typeError, env)

/-- Modelled from the spec: the Vault KV-v2 write
(`client.secrets.kv.v2.create_or_update_secret`), external to the repository —
a versioned create-or-update that makes the new secret the current version at
the path. -/
def vault_create_or_update_secret (store : Store) (path : String)
    (secret : Secret) : Store :=
  (path, secret) :: store

/-- Modelled from the spec: the Vault KV-v2 read
(`client.secrets.kv.read_secret_version`), external to the repository — the
response nests the stored fields under `data.data`, here the `data_data`
field; an absent path yields `none`. -/
structure VaultResponse where
  data_data : Secret

/-- Modelled from the spec: reading the current version of the secret at
`path`. -/
def vault_read_secret_version (store : Store) (path : String) :
    Option VaultResponse :=
  (store.lookup path).map (fun s => ⟨s⟩)

/-- Result of a run of `main`: the Python outcome (the logged `data.data`
dict on success, the raised exception otherwise), the final environment
table, the final store, and the event trace. -/
structure RunResult where
  result : Except PyError Secret
  env : Env
  store : Store
  trace : List Event

/-- Embedding of `main` (src/bmc_data-example.py lines 74-102), generalised over
the constants that `main` hard-codes (MAAS user, node id, Vault url and
token): fetch the BMC info, set the environment variables, write the secret
at `f"bmc-{node_id}"`, read it back, log `read_response['data']['data']`.
-/
def mainWith (loads : String → Except PyError Json)
    (maas_user node_id vault_url vault_token : String)
    (w : World) (env : Env) (store : Store) : RunResult :=
  match get_bmc_info loads maas_user node_id w with
  | (.error e, evs) => ⟨.error e, env, store, evs⟩
  | (.ok (bmc_ip, bmc_user, bmc_pass), evs) =>
    match set_environ_vars bmc_ip bmc_user bmc_pass env with
    | (some e, env1) => ⟨.error e, env1, store, evs⟩
    | (none, env1) =>
      let secret_path := "bmc-" ++ node_id
      let store1 := vault_create_or_update_secret store secret_path
        [("ip", bmc_ip), ("user", bmc_user), ("passw", bmc_pass)]
      let evs1 := evs ++ [.setEnvVars, .vaultWrite secret_path]
      match vault_read_secret_version store1 secret_path with
      | none => ⟨.error .invalidPath, env1, store1, evs1 ++ [.vaultRead secret_path]⟩
      | some resp =>
        ⟨.ok resp.data_data, env1, store1,
          evs1 ++ [.vaultRead secret_path, .logResult]⟩

/-- Embedding of `main` proper, with the hard-coded constants of
src/bmc_data-example.py lines 79-82. -/
def main (loads : String → Except PyError Json)
    (w : World) (env : Env) (store : Store) : RunResult :=
  mainWith loads "testflinger_a" "m7gfpp" "http://172.16.0.2:8200"
    "nh-vault-root" w env store

/-- The relay of spec claim C1: `get_bmc_info` immediately followed by
`set_environ_vars` (src/bmc_data-example.py lines 84-85). -/
def relay (loads : String → Except PyError Json)
    (maas_user node_id : String) (w : World) (env : Env) :
    Option PyError × Env :=
  match get_bmc_info loads maas_user node_id w with
  | (.error e, _) => (some e, env)
  | (.ok (bmc_ip, bmc_user, bmc_pass), _) =>
    set_environ_vars bmc_ip bmc_user bmc_pass env

/-! ## Helper lemmas -/

/-- A successful `call_cmd` emitted exactly the invocation event. -/
theorem call_cmd_ok_events (loads : String → Except PyError Json) (w : World)
    (output_json : Bool) (d : Option Json) (evs : List Event)
    (h : call_cmd loads w output_json = (.ok d, evs)) :
    evs = [.invokeInventory] := by
  unfold call_cmd at h
  split at h
  · simp at h
  · split at h
    · simp at h
      exact h.2.symm
    · split at h
      · split at h <;> simp at h <;> exact h.2.symm
      · simp at h
        exact h.2.symm

/-- A successful `get_bmc_info` emitted exactly the invocation event followed
by the extraction event. -/
theorem get_bmc_info_ok_events (loads : String → Except PyError Json)
    (maas_user node_id : String) (w : World) (t : Json × Json × Json)
    (evs : List Event)
    (h : get_bmc_info loads maas_user node_id w = (.ok t, evs)) :
    evs = [.invokeInventory, .extractFields] := by
  rcases hc : call_cmd loads w true with ⟨cres, cevs⟩
  cases cres with
  | error e => simp [get_bmc_info, hc] at h
  | ok data =>
    have hevs := call_cmd_ok_events loads w true data cevs hc
    subst hevs
    unfold get_bmc_info at h
    rw [hc] at h
    cases h1 : pySubscript data "power_address" with
    | error e1 => simp [h1] at h
    | ok v1 =>
      cases h2 : pySubscript data "power_user" with
      | error e2 => simp [h1, h2] at h
      | ok v2 =>
        cases h3 : pySubscript data "power_pass" with
        | error e3 => simp [h1, h2, h3] at h
        | ok v3 =>
          simp [h1, h2, h3] at h
          exact h.2.symm

/-- Lemma: `set_environ_vars` succeeds exactly when all three values are strings. -/
theorem set_environ_vars_ok (bmc_ip bmc_user bmc_pass : Json) (env : Env)
    (h : (set_environ_vars bmc_ip bmc_user bmc_pass env).1 = none) :
    ∃ a b c : String,
      bmc_ip = .str a ∧ bmc_user = .str b ∧ bmc_pass = .str c := by
  cases bmc_ip <;> cases bmc_user <;> cases bmc_pass <;>
    simp [set_environ_vars] at h ⊢

/-- Characterisation of a completed run of `mainWith`: the three extracted
values were strings, and the final state and trace are fully determined. -/
theorem mainWith_ok (loads : String → Except PyError Json)
    (maas_user node_id vault_url vault_token : String)
    (w : World) (env : Env) (store : Store) (d : Secret)
    (h : (mainWith loads maas_user node_id vault_url vault_token
            w env store).result = .ok d) :
    ∃ a b c : String,
      mainWith loads maas_user node_id vault_url vault_token w env store =
        ⟨.ok [("ip", .str a), ("user", .str b), ("passw", .str c)],
         ("BMC_PASS", c) :: ("BMC_USER", b) :: ("BMC_IP", a) :: env,
         ("bmc-" ++ node_id,
           [("ip", .str a), ("user", .str b), ("passw", .str c)]) :: store,
         [.invokeInventory, .extractFields, .setEnvVars,
          .vaultWrite ("bmc-" ++ node_id), .vaultRead ("bmc-" ++ node_id),
          .logResult]⟩ := by
  rcases hg : get_bmc_info loads maas_user node_id w with ⟨res, evs⟩
  cases res with
  | error e => simp [mainWith, hg] at h
  | ok t =>
    obtain ⟨ip, usr, pw⟩ := t
    have hevs := get_bmc_info_ok_events loads maas_user node_id w _ _ hg
    subst hevs
    rcases hset : set_environ_vars ip usr pw env with ⟨errOpt, env1⟩
    cases errOpt with
    | some e => simp [mainWith, hg, hset] at h
    | none =>
      obtain ⟨a, b, c, rfl, rfl, rfl⟩ :=
        set_environ_vars_ok ip usr pw env (by rw [hset])
      refine ⟨a, b, c, ?_⟩
      simp [mainWith, hg, set_environ_vars, vault_create_or_update_secret,
        vault_read_secret_version, List.lookup, beq_self_eq_true]

/-! ## Concrete fixtures used by witnesses and counterexamples -/

/-- A parser behaviour delivering the inventory response of the spec's
example: all three power fields present, with string values. -/
def goodLoads : String → Except PyError Json := fun _ =>
  .ok (.obj [("power_address", .str "10.0.0.5"), ("power_user", .str "admin"),
    ("power_pass", .str "secret")])

/-- A command outcome with exit code 0 and non-empty captured output. -/
def goodWorld : World := ⟨0, "out"⟩

/-- A command outcome with a non-zero exit code. -/
def failWorld : World := ⟨2, "maas: error"⟩

/-- A parser behaviour delivering an inventory response that lacks the
`power_pass` field. -/
def missingLoads : String → Except PyError Json := fun _ =>
  .ok (.obj [("power_address", .str "10.0.0.5"), ("power_user", .str "admin")])

/-- A parser behaviour delivering an inventory response whose
`power_address` field holds a JSON number rather than a string. -/
def numLoads : String → Except PyError Json := fun _ =>
  .ok (.obj [("power_address", .num 5), ("power_user", .str "admin"),
    ("power_pass", .str "secret")])

/-! ## Claims -/

/-- Claim C1, counterexample to the claim as stated: for the inventory
response `{"power_address": 5, "power_user": "admin", "power_pass": "secret"}`
— a JSON object containing all three keys, with `power_address` a number —
the relay does not set `BMC_IP` at all: `os.environ` only accepts string
values, so `set_environ_vars` raises `TypeError` and the environment is left
empty. -/
theorem C1_counterexample :
    relay numLoads "testflinger_a" "m7gfpp" goodWorld [] =
      (some .typeError, []) ∧
    envGet (relay numLoads "testflinger_a" "m7gfpp" goodWorld []).2
      "BMC_IP" = none := by
  constructor <;> rfl

/-- Claim C1 (amended: the three keys must hold string values): for every
inventory response that is a JSON object mapping `power_address`,
`power_user` and `power_pass` to strings `a`, `b`, `c`, running the relay
(`get_bmc_info` followed by `set_environ_vars`) raises nothing and sets
`BMC_IP = a`, `BMC_USER = b`, `BMC_PASS = c`. -/
theorem C1_env_export (loads : String → Except PyError Json)
    (maas_user node_id : String) (w : World) (env : Env)
    (fields : List (String × Json)) (a b c : String)
    (hexit : w.exitCode = 0) (hout : w.stdout ≠ "")
    (hload : loads w.stdout = .ok (.obj fields))
    (ha : fields.lookup "power_address" = some (.str a))
    (hb : fields.lookup "power_user" = some (.str b))
    (hc : fields.lookup "power_pass" = some (.str c)) :
    (relay loads maas_user node_id w env).1 = none ∧
    envGet (relay loads maas_user node_id w env).2 "BMC_IP" = some a ∧
    envGet (relay loads maas_user node_id w env).2 "BMC_USER" = some b ∧
    envGet (relay loads maas_user node_id w env).2 "BMC_PASS" = some c := by
  simp [relay, get_bmc_info, call_cmd, hexit, hout, hload, pySubscript,
    ha, hb, hc, set_environ_vars, envGet, List.lookup]

/-- Claim C1, witness: the spec's own example input
`{"power_address":"10.0.0.5","power_user":"admin","power_pass":"secret"}`
yields `BMC_IP=10.0.0.5`, `BMC_USER=admin`, `BMC_PASS=secret`. -/
theorem C1_env_export_witness :
    (relay goodLoads "testflinger_a" "m7gfpp" goodWorld []).1 = none ∧
    envGet (relay goodLoads "testflinger_a" "m7gfpp" goodWorld []).2
      "BMC_IP" = some "10.0.0.5" ∧
    envGet (relay goodLoads "testflinger_a" "m7gfpp" goodWorld []).2
      "BMC_USER" = some "admin" ∧
    envGet (relay goodLoads "testflinger_a" "m7gfpp" goodWorld []).2
      "BMC_PASS" = some "secret" :=
  C1_env_export goodLoads "testflinger_a" "m7gfpp" goodWorld []
    [("power_address", .str "10.0.0.5"), ("power_user", .str "admin"),
      ("power_pass", .str "secret")]
    "10.0.0.5" "admin" "secret" rfl (by decide) rfl rfl rfl rfl

/-- Claim C2: when the inventory invocation exits non-zero, the run of `main`
fails (with the `NameError` on `proc`), the environment table and the secret
store are unchanged, the trace holds no secret-store event, and in
particular the Vault write is never reached. -/
theorem C2_cmd_failure_no_effects (loads : String → Except PyError Json)
    (w : World) (env : Env) (store : Store) (hexit : w.exitCode ≠ 0) :
    (main loads w env store).env = env ∧
    (main loads w env store).store = store ∧
    (main loads w env store).result = .error (.nameError "proc") ∧
    (main loads w env store).trace = [.invokeInventory, .logError] ∧
    ∀ p, Event.vaultWrite p ∉ (main loads w env store).trace ∧
      Event.vaultRead p ∉ (main loads w env store).trace := by
  simp [main, mainWith, get_bmc_info, call_cmd, hexit]

/-- Claim C2, witness: a concrete failing invocation (exit code 2) leaves
the initially empty environment and store untouched. -/
theorem C2_cmd_failure_no_effects_witness :
    (main goodLoads failWorld [] []).env = [] ∧
    (main goodLoads failWorld [] []).store = [] ∧
    (main goodLoads failWorld [] []).result = .error (.nameError "proc") ∧
    (main goodLoads failWorld [] []).trace = [.invokeInventory, .logError] ∧
    ∀ p, Event.vaultWrite p ∉ (main goodLoads failWorld [] []).trace ∧
      Event.vaultRead p ∉ (main goodLoads failWorld [] []).trace :=
  C2_cmd_failure_no_effects goodLoads failWorld [] [] (by decide)

/-- Claim C3: on a non-zero exit code of the external command, `call_cmd`
logs the error (the `logError` event) and then raises `NameError` on the
local `proc` that the failed `subprocess.run` never assigned. -/
theorem C3_error_branch_hits_unset_local (loads : String → Except PyError Json)
    (w : World) (output_json : Bool) (hexit : w.exitCode ≠ 0) :
    call_cmd loads w output_json =
      (.error (.nameError "proc"), [.invokeInventory, .logError]) := by
  simp [call_cmd, hexit]

/-- Claim C3, witness: the concrete failing invocation. -/
theorem C3_error_branch_hits_unset_local_witness :
    call_cmd goodLoads failWorld true =
      (.error (.nameError "proc"), [.invokeInventory, .logError]) :=
  C3_error_branch_hits_unset_local goodLoads failWorld true (by decide)

/-- Claim C4: when the parsed inventory response is a JSON object lacking at
least one of `power_address`, `power_user`, `power_pass`, the run fails with
a `KeyError` raised inside `get_bmc_info`, and no secret-store call — neither
the write nor the read — is ever made: the store is unchanged and the trace
holds no Vault event. -/
theorem C4_missing_field_fails_early (loads : String → Except PyError Json)
    (maas_user node_id vault_url vault_token : String)
    (w : World) (env : Env) (store : Store) (fields : List (String × Json))
    (hexit : w.exitCode = 0) (hout : w.stdout ≠ "")
    (hload : loads w.stdout = .ok (.obj fields))
    (hmiss : fields.lookup "power_address" = none ∨
      fields.lookup "power_user" = none ∨
      fields.lookup "power_pass" = none) :
    (∃ k, (mainWith loads maas_user node_id vault_url vault_token
        w env store).result = .error (.keyError k)) ∧
    (mainWith loads maas_user node_id vault_url vault_token
        w env store).store = store ∧
    ∀ p, Event.vaultWrite p ∉ (mainWith loads maas_user node_id vault_url
        vault_token w env store).trace ∧
      Event.vaultRead p ∉ (mainWith loads maas_user node_id vault_url
        vault_token w env store).trace := by
  rcases hmiss with hm | hm | hm
  · simp [mainWith, get_bmc_info, call_cmd, hexit, hout, hload, pySubscript, hm]
  · cases hpa : fields.lookup "power_address" <;>
      simp [mainWith, get_bmc_info, call_cmd, hexit, hout, hload, pySubscript,
        hpa, hm]
  · cases hpa : fields.lookup "power_address" <;>
      cases hpu : fields.lookup "power_user" <;>
        simp [mainWith, get_bmc_info, call_cmd, hexit, hout, hload, pySubscript,
          hpa, hpu, hm]

/-- Claim C4, witness: a response holding only `power_address` and
`power_user` fails with a `KeyError` and leaves the store untouched. -/
theorem C4_missing_field_fails_early_witness :
    (∃ k, (mainWith missingLoads "testflinger_a" "m7gfpp"
        "http://172.16.0.2:8200" "nh-vault-root" goodWorld [] []).result =
        .error (.keyError k)) ∧
    (mainWith missingLoads "testflinger_a" "m7gfpp" "http://172.16.0.2:8200"
        "nh-vault-root" goodWorld [] []).store = [] ∧
    ∀ p, Event.vaultWrite p ∉ (mainWith missingLoads "testflinger_a" "m7gfpp"
        "http://172.16.0.2:8200" "nh-vault-root" goodWorld [] []).trace ∧
      Event.vaultRead p ∉ (mainWith missingLoads "testflinger_a" "m7gfpp"
        "http://172.16.0.2:8200" "nh-vault-root" goodWorld [] []).trace :=
  C4_missing_field_fails_early missingLoads "testflinger_a" "m7gfpp"
    "http://172.16.0.2:8200" "nh-vault-root" goodWorld [] []
    [("power_address", .str "10.0.0.5"), ("power_user", .str "admin")]
    rfl (by decide) rfl (Or.inr (Or.inr rfl))

/-- Claim C5: in every completed run, the path of the secret-store write and
of the read-back is exactly `"bmc-" ++ node_id`: both events occur with that
path, and no Vault event occurs with any other path. -/
theorem C5_secret_path_shape (loads : String → Except PyError Json)
    (maas_user node_id vault_url vault_token : String)
    (w : World) (env : Env) (store : Store) (d : Secret)
    (h : (mainWith loads maas_user node_id vault_url vault_token
        w env store).result = .ok d) :
    Event.vaultWrite ("bmc-" ++ node_id) ∈
      (mainWith loads maas_user node_id vault_url vault_token
        w env store).trace ∧
    Event.vaultRead ("bmc-" ++ node_id) ∈
      (mainWith loads maas_user node_id vault_url vault_token
        w env store).trace ∧
    ∀ p, (Event.vaultWrite p ∈ (mainWith loads maas_user node_id vault_url
        vault_token w env store).trace → p = "bmc-" ++ node_id) ∧
      (Event.vaultRead p ∈ (mainWith loads maas_user node_id vault_url
        vault_token w env store).trace → p = "bmc-" ++ node_id) := by
  obtain ⟨a, b, c, heq⟩ := mainWith_ok loads maas_user node_id vault_url
    vault_token w env store d h
  rw [heq]
  simp

/-- Claim C5, witness: with node identifier `"m7gfpp"` the write and the
read-back both use exactly the path `"bmc-m7gfpp"`. -/
theorem C5_secret_path_shape_witness :
    Event.vaultWrite "bmc-m7gfpp" ∈
      (mainWith goodLoads "testflinger_a" "m7gfpp" "http://172.16.0.2:8200"
        "nh-vault-root" goodWorld [] []).trace ∧
    Event.vaultRead "bmc-m7gfpp" ∈
      (mainWith goodLoads "testflinger_a" "m7gfpp" "http://172.16.0.2:8200"
        "nh-vault-root" goodWorld [] []).trace := by
  have h := C5_secret_path_shape goodLoads "testflinger_a" "m7gfpp"
    "http://172.16.0.2:8200" "nh-vault-root" goodWorld [] []
    [("ip", .str "10.0.0.5"), ("user", .str "admin"), ("passw", .str "secret")]
    rfl
  exact ⟨h.1, h.2.1⟩

/-- Claim C6: round-trip fidelity of the secret store model — writing the
secret `{ip: X, user: Y, passw: Z}` at a path and immediately reading the
same path back yields a response whose nested `data.data` holds exactly
those three fields. (The store itself is external; `vault_create_or_update_secret`
and `vault_read_secret_version` are modelled from the spec.) -/
theorem C6_write_read_roundtrip (store : Store) (path : String)
    (X Y Z : Json) :
    vault_read_secret_version
      (vault_create_or_update_secret store path
        [("ip", X), ("user", Y), ("passw", Z)]) path =
      some ⟨[("ip", X), ("user", Y), ("passw", Z)]⟩ := by
  simp [vault_create_or_update_secret, vault_read_secret_version, List.lookup]

/-- Claim C7: every completed run of `main` performs exactly the six steps
invoke inventory, extract fields, set environment variables, write secret,
read secret back, log the result — in that order, each exactly once. -/
theorem C7_sequential_trace (loads : String → Except PyError Json)
    (w : World) (env : Env) (store : Store) (d : Secret)
    (h : (main loads w env store).result = .ok d) :
    (main loads w env store).trace =
      [.invokeInventory, .extractFields, .setEnvVars,
       .vaultWrite "bmc-m7gfpp", .vaultRead "bmc-m7gfpp", .logResult] := by
  obtain ⟨a, b, c, heq⟩ := mainWith_ok loads "testflinger_a" "m7gfpp"
    "http://172.16.0.2:8200" "nh-vault-root" w env store d h
  show (mainWith loads "testflinger_a" "m7gfpp" "http://172.16.0.2:8200"
    "nh-vault-root" w env store).trace = _
  rw [heq]
  simp

/-- Claim C7, witness: the concrete completing run produces exactly the six
steps in order. -/
theorem C7_sequential_trace_witness :
    (main goodLoads goodWorld [] []).trace =
      [.invokeInventory, .extractFields, .setEnvVars,
       .vaultWrite "bmc-m7gfpp", .vaultRead "bmc-m7gfpp", .logResult] :=
  C7_sequential_trace goodLoads goodWorld [] []
    [("ip", .str "10.0.0.5"), ("user", .str "admin"), ("passw", .str "secret")]
    rfl

/-- Claim C8: for all string arguments, `set_environ_vars` raises no error
(its Python counterpart returns `None`, modelled here as a state change with
no exception), sets the three variables `BMC_IP`, `BMC_USER`, `BMC_PASS` to
its three arguments, and leaves every other environment variable unchanged. -/
theorem C8_set_environ_vars_total (a b c : String) (env : Env) :
    (set_environ_vars (.str a) (.str b) (.str c) env).1 = none ∧
    envGet (set_environ_vars (.str a) (.str b) (.str c) env).2
      "BMC_IP" = some a ∧
    envGet (set_environ_vars (.str a) (.str b) (.str c) env).2
      "BMC_USER" = some b ∧
    envGet (set_environ_vars (.str a) (.str b) (.str c) env).2
      "BMC_PASS" = some c ∧
    ∀ k, k ≠ "BMC_IP" → k ≠ "BMC_USER" → k ≠ "BMC_PASS" →
      envGet (set_environ_vars (.str a) (.str b) (.str c) env).2 k =
        envGet env k := by
  refine ⟨rfl, ?_, ?_, ?_, ?_⟩
  · simp [set_environ_vars, envGet, List.lookup]
  · simp [set_environ_vars, envGet, List.lookup]
  · simp [set_environ_vars, envGet, List.lookup]
  · intro k h1 h2 h3
    have e1 : (k == "BMC_IP") = false := beq_eq_false_iff_ne.mpr h1
    have e2 : (k == "BMC_USER") = false := beq_eq_false_iff_ne.mpr h2
    have e3 : (k == "BMC_PASS") = false := beq_eq_false_iff_ne.mpr h3
    simp [set_environ_vars, envGet, List.lookup, e1, e2, e3]

/-- Claim C8, witness: concrete strings, over an environment holding an
unrelated variable `HOME`, which is left unchanged. -/
theorem C8_set_environ_vars_total_witness :
    (set_environ_vars (.str "10.0.0.5") (.str "admin") (.str "secret")
      [("HOME", "/root")]).1 = none ∧
    envGet (set_environ_vars (.str "10.0.0.5") (.str "admin") (.str "secret")
      [("HOME", "/root")]).2 "BMC_IP" = some "10.0.0.5" ∧
    envGet (set_environ_vars (.str "10.0.0.5") (.str "admin") (.str "secret")
      [("HOME", "/root")]).2 "HOME" = some "/root" := by
  obtain ⟨g1, g2, g3, g4, g5⟩ := C8_set_environ_vars_total "10.0.0.5" "admin"
    "secret" [("HOME", "/root")]
  refine ⟨g1, g2, ?_⟩
  rw [g5 "HOME" (by decide) (by decide) (by decide)]
  rfl

/-- Claim C9: in every completed run, the secret written to the store under
keys `ip`, `user`, `passw` holds exactly the values that the environment
variables `BMC_IP`, `BMC_USER`, `BMC_PASS` hold at the end of the run — the
two sinks agree. -/
theorem C9_env_and_store_agree (loads : String → Except PyError Json)
    (maas_user node_id vault_url vault_token : String)
    (w : World) (env : Env) (store : Store) (d : Secret)
    (h : (mainWith loads maas_user node_id vault_url vault_token
        w env store).result = .ok d) :
    ∃ x y z : String,
      envGet (mainWith loads maas_user node_id vault_url vault_token
        w env store).env "BMC_IP" = some x ∧
      envGet (mainWith loads maas_user node_id vault_url vault_token
        w env store).env "BMC_USER" = some y ∧
      envGet (mainWith loads maas_user node_id vault_url vault_token
        w env store).env "BMC_PASS" = some z ∧
      List.lookup ("bmc-" ++ node_id)
        (mainWith loads maas_user node_id vault_url vault_token
          w env store).store =
        some [("ip", .str x), ("user", .str y), ("passw", .str z)] := by
  obtain ⟨a, b, c, heq⟩ := mainWith_ok loads maas_user node_id vault_url
    vault_token w env store d h
  refine ⟨a, b, c, ?_, ?_, ?_, ?_⟩ <;> rw [heq] <;>
    simp [envGet, List.lookup]

/-- Claim C9, witness: the concrete completing run exports
`10.0.0.5`/`admin`/`secret` and stores exactly the same three values. -/
theorem C9_env_and_store_agree_witness :
    ∃ x y z : String,
      envGet (mainWith goodLoads "testflinger_a" "m7gfpp"
        "http://172.16.0.2:8200" "nh-vault-root" goodWorld [] []).env
        "BMC_IP" = some x ∧
      envGet (mainWith goodLoads "testflinger_a" "m7gfpp"
        "http://172.16.0.2:8200" "nh-vault-root" goodWorld [] []).env
        "BMC_USER" = some y ∧
      envGet (mainWith goodLoads "testflinger_a" "m7gfpp"
        "http://172.16.0.2:8200" "nh-vault-root" goodWorld [] []).env
        "BMC_PASS" = some z ∧
      List.lookup ("bmc-" ++ "m7gfpp")
        (mainWith goodLoads "testflinger_a" "m7gfpp" "http://172.16.0.2:8200"
          "nh-vault-root" goodWorld [] []).store =
        some [("ip", .str x), ("user", .str y), ("passw", .str z)] :=
  C9_env_and_store_agree goodLoads "testflinger_a" "m7gfpp"
    "http://172.16.0.2:8200" "nh-vault-root" goodWorld [] []
    [("ip", .str "10.0.0.5"), ("user", .str "admin"), ("passw", .str "secret")]
    rfl

/-- Claim C10: a successful command (exit code 0) with empty stdout makes
`call_cmd` return `None` whatever the `output_json` flag is, and conversely a
non-`None` return — the JSON-parsing or the raw-string branch — happens only
when stdout was non-empty. -/
theorem C10_empty_stdout_returns_none (loads : String → Except PyError Json)
    (w : World) (output_json : Bool) :
    (w.exitCode = 0 → w.stdout = "" →
      (call_cmd loads w output_json).1 = .ok none) ∧
    ∀ v : Json, (call_cmd loads w output_json).1 = .ok (some v) →
      w.stdout ≠ "" := by
  constructor
  · intro hexit hout
    simp [call_cmd, hexit, hout]
  · intro v hv hout
    by_cases hexit : w.exitCode = 0 <;>
      simp [call_cmd, hexit, hout] at hv

/-- Claim C10, witness: exit code 0 with empty output returns `None` under
the JSON flag, and the concrete non-`None` run indeed had non-empty
output. -/
theorem C10_empty_stdout_returns_none_witness :
    (call_cmd goodLoads ⟨0, ""⟩ true).1 = .ok none ∧
    goodWorld.stdout ≠ "" :=
  ⟨(C10_empty_stdout_returns_none goodLoads ⟨0, ""⟩ true).1 rfl rfl,
   (C10_empty_stdout_returns_none goodLoads goodWorld true).2
     (.obj [("power_address", .str "10.0.0.5"), ("power_user", .str "admin"),
       ("power_pass", .str "secret")]) rfl⟩

end BmcData
